import Mathlib

/-
Shallow embedding of the Realtime-voice repository (a browser client for a
real-time speech API plus a token-minting backend).

Sources embedded:
  src/client/components/App.jsx          (session lifecycle, event channel)
  src/client/components/SessionControls.jsx (credential save)
  src/server.js                          (GET /token handler)

JavaScript objects are modelled as a small JSON value type; JS truthiness of
a possibly-absent field is modelled by `truthy`.  Asynchronous effects
(credential probe, microphone acquisition, handshake HTTP exchange) are
modelled as oracle inputs in `StartEnv`; browser resources (peer connection,
data channel, audio track) are explicit records whose final status a run
reports.
-/

mutual

/-- JSON values, as produced by JSON.parse / consumed by JSON.stringify. -/
inductive Json where
  | null
  | bool (b : Bool)
  | str (s : String)
  | num (n : Int)
  | obj (fields : JFields)
deriving DecidableEq

/-- Fields of a JSON object, in insertion order (JS objects keep it). -/
inductive JFields where
  | nil
  | cons (k : String) (v : Json) (rest : JFields)
deriving DecidableEq

end

/-- Look a key up in an object's field list (first match). -/
def lookupField : JFields → String → Option Json
  | JFields.nil, _ => none
  | JFields.cons k' v rest, k => if k' = k then some v else lookupField rest k

/-- Read a property: `m.k`.  Absent key or non-object gives none (undefined). -/
def getField : Json → String → Option Json
  | Json.obj fs, k => lookupField fs k
  | _, _ => none

/-- Replace the binding for a key, or append it at the end (JS assignment). -/
def setFields : JFields → String → Json → JFields
  | JFields.nil, k, v => JFields.cons k v JFields.nil
  | JFields.cons k' v' rest, k, v =>
      if k' = k then JFields.cons k v rest
      else JFields.cons k' v' (setFields rest k v)

/-- Property assignment `m.k = v`; on a non-object it is a silent no-op
(non-strict JS). -/
def setField : Json → String → Json → Json
  | Json.obj fs, k, v => Json.obj (setFields fs k v)
  | j, _, _ => j

/-- JS truthiness of a possibly-absent property value: undefined, null,
false, the empty string and 0 are falsy. -/
def truthy : Option Json → Bool
  | none => false
  | some Json.null => false
  | some (Json.bool b) => b
  | some (Json.str s) => s ≠ ""
  | some (Json.num n) => n ≠ 0
  | some (Json.obj _) => true

/-- State of an RTCDataChannel. -/
inductive ChState where
  | connecting
  | opened
  | closed
deriving DecidableEq

/-- An event (data) channel handle. -/
structure Channel where
  state : ChState
deriving DecidableEq

/-- A media track acquired from getUserMedia. -/
structure Track where
  live : Bool
deriving DecidableEq

/-- A peer connection handle with the tracks attached to its senders. -/
structure PC where
  closed : Bool
  senderTracks : List Track
deriving DecidableEq

/-- The App component state: React state hooks and refs of App.jsx lines
8-14, plus the browser's localStorage entry for the credential. -/
structure AppState where
  isSessionActive : Bool
  events : List Json
  dataChannel : Option Channel
  apiKey : String
  isKeyValid : Bool
  peerConnection : Option PC
  stored : Option String
deriving DecidableEq

/-- App.jsx line 11: initial apiKey is localStorage.getItem(..) or "". -/
def loadApiKey : Option String → String
  | none => ""
  | some v => v

/-- Initial App state on application load (App.jsx lines 8-14), given the
persisted credential. -/
def initialState (stored : Option String) : AppState :=
  { isSessionActive := false
    events := []
    dataChannel := none
    apiKey := loadApiKey stored
    isKeyValid := false
    peerConnection := none
    stored := stored }

/-- The session is torn down / never started: inactive, no channel handle,
no transport handle retained. -/
def isIdle (s : AppState) : Bool :=
  !s.isSessionActive && s.dataChannel.isNone && s.peerConnection.isNone

/-- SessionControls.jsx handleSaveKey (lines 19-22) composed with the
persistence effect of App.jsx lines 17-21: setApiKey(value), and the effect
writes to localStorage only when the new value is truthy (non-empty). -/
def handleSaveKey (v : String) (s : AppState) : AppState :=
  let s1 : AppState := { s with apiKey := v }
  if v ≠ "" then { s1 with stored := some v } else s1

/-- Oracle answers for the suspending steps of startSession: the outcome of
the validity probe (App.jsx validateApiKey, with network failure folded into
a false result, lines 23-39), of getUserMedia, and of the SDP handshake
POST. -/
structure StartEnv where
  validateOk : Bool
  micOk : Bool
  micErrMsg : String
  sdpOk : Bool
  sdpBody : String
deriving DecidableEq

/-- Result of one run of startSession: the resulting App state, the final
status of each resource created during the run (even when not retained in
the state), whether the validity probe was issued, and the alert shown. -/
structure StartTrace where
  state : AppState
  createdPC : Option PC
  createdChannel : Option Channel
  acquiredTrack : Option Track
  probed : Bool
  alert : Option String
deriving DecidableEq

/-- App.jsx startSession (lines 41-109).  Order of operations in the source:
credential checks; new RTCPeerConnection (line 61); getUserMedia (line 69);
addTrack (line 72); createDataChannel and setDataChannel (lines 75-76); SDP
offer/POST (lines 79-96); setRemoteDescription and retaining the transport
in peerConnection.current (lines 98-104).  The catch block (lines 105-108)
only logs and alerts: it closes and clears nothing. -/
def startSession (env : StartEnv) (s : AppState) : StartTrace :=
  if s.apiKey = "" then
    { state := s
      createdPC := none
      createdChannel := none
      acquiredTrack := none
      probed := false
      alert := some "Please enter your OpenAI API key" }
  else
    let probed := !s.isKeyValid
    let keyValid := s.isKeyValid || env.validateOk
    let s1 : AppState := { s with isKeyValid := keyValid }
    if keyValid then
      if env.micOk then
        let track : Track := { live := true }
        let pc : PC := { closed := false, senderTracks := [track] }
        let dc : Channel := { state := ChState.connecting }
        let s2 : AppState := { s1 with dataChannel := some dc }
        if env.sdpOk then
          { state := { s2 with peerConnection := some pc }
            createdPC := some pc
            createdChannel := some dc
            acquiredTrack := some track
            probed := probed
            alert := none }
        else
          { state := s2
            createdPC := some pc
            createdChannel := some dc
            acquiredTrack := some track
            probed := probed
            alert := some ("Failed to start session: API request failed: " ++ env.sdpBody) }
      else
        { state := s1
          createdPC := some { closed := false, senderTracks := [] }
          createdChannel := none
          acquiredTrack := none
          probed := probed
          alert := some ("Failed to start session: " ++ env.micErrMsg) }
    else
      { state := s1
        createdPC := none
        createdChannel := none
        acquiredTrack := none
        probed := probed
        alert := some "Invalid API key. Please check and try again." }

/-- dataChannel.close(). -/
def closeChannel (c : Channel) : Channel := { c with state := ChState.closed }

/-- track.stop(). -/
def stopTrack (t : Track) : Track := { t with live := false }

/-- Closing a peer connection after stopping every sender's track
(App.jsx lines 117-125). -/
def closePC (p : PC) : PC :=
  { closed := true, senderTracks := p.senderTracks.map stopTrack }

/-- App.jsx stopSession (lines 112-130): close the channel if present, stop
each sender's track and close the transport if present, then clear the
active flag and both handles.  The second and third components report the
final status of the handles that were released. -/
def stopSession (s : AppState) : AppState × Option Channel × Option PC :=
  let dcFinal := Option.map closeChannel s.dataChannel
  let pcFinal := Option.map closePC s.peerConnection
  ({ s with isSessionActive := false, dataChannel := none, peerConnection := none },
    dcFinal, pcFinal)

/-- App.jsx line 136: message.event_id = message.event_id ||
crypto.randomUUID(), with gen the randomUUID draw. -/
def backfillId (gen : String) (m : Json) : Json :=
  if truthy (getField m "event_id") then m else setField m "event_id" (Json.str gen)

/-- App.jsx lines 142-144 and 181-183: if (!m.timestamp) m.timestamp = now. -/
def backfillTimestamp (now : String) (m : Json) : Json :=
  if truthy (getField m "timestamp") then m else setField m "timestamp" (Json.str now)

/-- Outcome of one sendClientEvent call: the frame transmitted on the wire
(if any), the entry recorded in history (if any), and the console.error
diagnostic (if any). -/
structure SendResult where
  wire : Option Json
  history : Option Json
  logged : Option String
deriving DecidableEq

/-- App.jsx sendClientEvent (lines 133-153).  gen is the crypto.randomUUID()
draw, now the current toLocaleTimeString().  When the channel is open:
backfill event_id if falsy, transmit, then backfill timestamp if falsy and
record the message; otherwise log a diagnostic and do nothing. -/
def sendClientEvent (gen now : String) (dc : Option Channel) (message : Json) : SendResult :=
  match dc with
  | some c =>
    if c.state = ChState.opened then
      let m1 := backfillId gen message
      let m2 := backfillTimestamp now m1
      { wire := some m1, history := some m2, logged := none }
    else
      { wire := none, history := none
        logged := some "Failed to send message - data channel not available or not open" }
  | none =>
    { wire := none, history := none
      logged := some "Failed to send message - data channel not available or not open" }

/-- sendClientEvent acting on the App state: the history entry, when
produced, is prepended to events (App.jsx line 145). -/
def sendClientEventApp (gen now : String) (s : AppState) (message : Json) :
    AppState × SendResult :=
  let r := sendClientEvent gen now s.dataChannel message
  (match r.history with
   | some h => { s with events := h :: s.events }
   | none => s, r)

/-- The data channel message listener (App.jsx lines 179-186): the parsed
incoming event gets a display timestamp backfilled when falsy; nothing else
is touched. -/
def handleRemoteMessage (now : String) (event : Json) : Json :=
  backfillTimestamp now event

/-- Prepending a handled incoming event to history (App.jsx line 185). -/
def receiveMessage (now : String) (e : Json) (s : AppState) : AppState :=
  { s with events := handleRemoteMessage now e :: s.events }

/-- The data channel open listener (App.jsx lines 189-192). -/
def handleChannelOpen (s : AppState) : AppState :=
  { s with isSessionActive := true, events := [] }

/-- The structured error body of server.js (lines 21-26 and 48-53). -/
def errorBody (msg : String) : Json :=
  Json.obj (JFields.cons "error"
    (Json.obj (JFields.cons "message" (Json.str msg)
      (JFields.cons "type" (Json.str "server_error") JFields.nil)))
    JFields.nil)

/-- JS falsiness of the OPENAI_API_KEY environment variable: unset or empty. -/
def strFalsy : Option String → Bool
  | none => true
  | some v => v == ""

/-- server.js GET /token handler (lines 18-55).  upstream is the outcome of
the fetch to the provider's sessions endpoint followed by response.json():
ok with the parsed body, or error with the thrown message.  Result is the
HTTP status and JSON body sent to the caller. -/
def tokenHandler (apiKey : Option String) (upstream : Except String Json) : Nat × Json :=
  if strFalsy apiKey then
    (500, errorBody "OpenAI API key not configured")
  else
    match upstream with
    | Except.ok data => (200, data)
    | Except.error msg =>
        (500, errorBody (if msg = "" then "Failed to generate token" else msg))

/-- Concrete states and environments used in witnesses and counterexamples. -/
def idleValidState : AppState :=
  { isSessionActive := false
    events := []
    dataChannel := none
    apiKey := "sk-test"
    isKeyValid := true
    peerConnection := none
    stored := some "sk-test" }

/-- An idle state whose credential has not been validated yet. -/
def unvalidatedState : AppState :=
  { isSessionActive := false
    events := []
    dataChannel := none
    apiKey := "sk-unvalidated"
    isKeyValid := false
    peerConnection := none
    stored := none }

/-- An idle state holding a previously validated credential. -/
def validatedState : AppState :=
  { isSessionActive := false
    events := []
    dataChannel := none
    apiKey := "sk-old"
    isKeyValid := true
    peerConnection := none
    stored := some "sk-old" }

/-- Environment in which every step succeeds. -/
def envHappy : StartEnv :=
  { validateOk := true, micOk := true, micErrMsg := "", sdpOk := true, sdpBody := "v=0" }

/-- Environment in which the microphone permission is denied. -/
def envMicDenied : StartEnv :=
  { validateOk := true, micOk := false, micErrMsg := "Permission denied"
    sdpOk := true, sdpBody := "v=0" }

/-- Environment in which the handshake endpoint answers 403 with body
"forbidden". -/
def envForbidden : StartEnv :=
  { validateOk := true, micOk := true, micErrMsg := "", sdpOk := false, sdpBody := "forbidden" }

/-- An outgoing message that already carries a timestamp field. -/
def msgWithTimestamp : Json :=
  Json.obj (JFields.cons "type" (Json.str "ping")
    (JFields.cons "timestamp" (Json.str "09:00:00") JFields.nil))

/-- An outgoing message without a timestamp field. -/
def msgNoTimestamp : Json :=
  Json.obj (JFields.cons "type" (Json.str "ping") JFields.nil)

/-- An incoming remote event that carries no event_id field. -/
def remoteNoId : Json :=
  Json.obj (JFields.cons "type" (Json.str "response.done") JFields.nil)

/-- Assigning a key and then reading it back gives the assigned value. -/
theorem lookupField_setFields_self : ∀ (fs : JFields) (k : String) (v : Json),
    lookupField (setFields fs k v) k = some v
  | JFields.nil, k, v => by simp [setFields, lookupField]
  | JFields.cons k2 v2 rest, k, v => by
    by_cases h : k2 = k
    · simp [setFields, h, lookupField]
    · simp [setFields, h, lookupField, lookupField_setFields_self rest k v]

/-- Assigning one key leaves every other key unchanged. -/
theorem lookupField_setFields_ne :
    ∀ (fs : JFields) (k k' : String) (v : Json), k ≠ k' →
      lookupField (setFields fs k v) k' = lookupField fs k'
  | JFields.nil, k, k', v, h => by simp [setFields, lookupField, h]
  | JFields.cons k2 v2 rest, k, k', v, h => by
    by_cases h2 : k2 = k
    · simp [setFields, h2, lookupField, h]
    · simp only [setFields, h2, if_neg h2, lookupField]
      by_cases h3 : k2 = k'
      · simp [h3]
      · simp [h3, lookupField_setFields_ne rest k k' v h]

/-- Property assignment leaves every other property unchanged. -/
theorem getField_setField_ne (j : Json) (k k' : String) (v : Json) (h : k ≠ k') :
    getField (setField j k v) k' = getField j k' := by
  cases j <;> simp [setField, getField]
  exact lookupField_setFields_ne _ _ _ _ h

/-- Assigning a property to an object and reading it back gives the value. -/
theorem getField_setField_self_obj (fs : JFields) (k : String) (v : Json) :
    getField (setField (Json.obj fs) k v) k = some v := by
  simp [setField, getField, lookupField_setFields_self]

/-- A truthy property is in particular present. -/
theorem truthy_isSome (o : Option Json) (h : truthy o = true) : o.isSome = true := by
  cases o with
  | none => simp [truthy] at h
  | some v => rfl

/-- Backfilling the identifier does not touch other properties. -/
theorem getField_backfillId_ne (gen : String) (m : Json) (k : String)
    (h : "event_id" ≠ k) : getField (backfillId gen m) k = getField m k := by
  unfold backfillId
  by_cases ht : truthy (getField m "event_id")
  · simp [ht]
  · simp [ht, getField_setField_ne m "event_id" k (Json.str gen) h]

/-- Backfilling the timestamp does not touch other properties. -/
theorem getField_backfillTimestamp_ne (now : String) (m : Json) (k : String)
    (h : "timestamp" ≠ k) : getField (backfillTimestamp now m) k = getField m k := by
  unfold backfillTimestamp
  by_cases ht : truthy (getField m "timestamp")
  · simp [ht]
  · simp [ht, getField_setField_ne m "timestamp" k (Json.str now) h]

/-- Backfilling the identifier keeps an object an object. -/
theorem backfillId_obj (gen : String) (fs : JFields) :
    ∃ fs2, backfillId gen (Json.obj fs) = Json.obj fs2 := by
  unfold backfillId
  by_cases ht : truthy (getField (Json.obj fs) "event_id")
  · exact ⟨fs, by simp [ht]⟩
  · exact ⟨setFields fs "event_id" (Json.str gen), by simp [ht, setField]⟩

/-- After backfilling, an object message carries an event_id property. -/
theorem backfillId_obj_id_isSome (gen : String) (fs : JFields) :
    (getField (backfillId gen (Json.obj fs)) "event_id").isSome = true := by
  unfold backfillId
  by_cases ht : truthy (getField (Json.obj fs) "event_id")
  · simp [ht]
    exact truthy_isSome _ ht
  · simp [ht, getField_setField_self_obj]

/-- After backfilling, an object message carries a timestamp property. -/
theorem backfillTimestamp_obj_isSome (now : String) (fs : JFields) :
    (getField (backfillTimestamp now (Json.obj fs)) "timestamp").isSome = true := by
  unfold backfillTimestamp
  by_cases ht : truthy (getField (Json.obj fs) "timestamp")
  · simp [ht]
    exact truthy_isSome _ ht
  · simp [ht, getField_setField_self_obj]

/-- On an open channel, the transmitted frame is the message after id
backfill and the history entry additionally has the timestamp backfilled. -/
theorem sendClientEvent_open (gen now : String) (c : Channel) (m : Json)
    (hOpen : c.state = ChState.opened) :
    sendClientEvent gen now (some c) m =
      { wire := some (backfillId gen m)
        history := some (backfillTimestamp now (backfillId gen m))
        logged := none } := by
  simp [sendClientEvent, hOpen]

/-- Claim C3 counterexample: a message passed to sendClientEvent on an open
channel that already carries a timestamp field is transmitted over the wire
WITH that timestamp field, refuting the claim that the transmitted payload
never contains a timestamp field. -/
theorem C3_counterexample :
    Option.map (fun w => getField w "timestamp")
        (sendClientEvent "evt_1" "10:00:00" (some { state := ChState.opened })
          msgWithTimestamp).wire
      = some (some (Json.str "09:00:00")) := by
  decide

/-- Claim C3 (amended): on an open channel a frame is always transmitted and
its timestamp property is exactly the one of the incoming message object, so
a message with no timestamp field is transmitted without one while a
pre-existing timestamp field goes out on the wire unchanged; the recorded
history entry always carries a timestamp property. -/
theorem C3_wire_and_history_timestamp (gen now : String) (c : Channel) (fs : JFields)
    (hOpen : c.state = ChState.opened) :
    (sendClientEvent gen now (some c) (Json.obj fs)).wire.isSome = true ∧
    (∀ w, (sendClientEvent gen now (some c) (Json.obj fs)).wire = some w →
        getField w "timestamp" = getField (Json.obj fs) "timestamp") ∧
    (getField (Json.obj fs) "timestamp" = none →
        Option.map (fun w => getField w "timestamp")
          (sendClientEvent gen now (some c) (Json.obj fs)).wire = some none) ∧
    (∀ h, (sendClientEvent gen now (some c) (Json.obj fs)).history = some h →
        (getField h "timestamp").isSome = true) := by
  have hrun := sendClientEvent_open gen now c (Json.obj fs) hOpen
  obtain ⟨fs2, hfs2⟩ := backfillId_obj gen fs
  refine ⟨by simp [hrun], ?_, ?_, ?_⟩
  · intro w hw
    rw [hrun] at hw
    rw [Option.some_inj] at hw
    subst hw
    exact getField_backfillId_ne gen (Json.obj fs) "timestamp" (by decide)
  · intro habs
    rw [hrun]
    show some (getField (backfillId gen (Json.obj fs)) "timestamp") = some none
    rw [getField_backfillId_ne gen (Json.obj fs) "timestamp" (by decide), habs]
  · intro h hh
    rw [hrun] at hh
    rw [Option.some_inj] at hh
    subst hh
    rw [hfs2]
    exact backfillTimestamp_obj_isSome now fs2

/-- Claim C3 witness: concrete open-channel send of a message without a
timestamp field: the wire frame has no timestamp property. -/
theorem C3_wire_and_history_timestamp_witness :
    Channel.state { state := ChState.opened } = ChState.opened ∧
    getField msgNoTimestamp "timestamp" = none ∧
    Option.map (fun w => getField w "timestamp")
        (sendClientEvent "evt_4" "10:00:00" (some { state := ChState.opened })
          msgNoTimestamp).wire = some none := by
  refine ⟨rfl, by decide, ?_⟩
  exact (C3_wire_and_history_timestamp "evt_4" "10:00:00" { state := ChState.opened }
    (JFields.cons "type" (Json.str "ping") JFields.nil) rfl).2.2.1 (by decide)

/-- Claim C4 counterexample: an incoming remote event with no event_id is
prepended to history without any identifier being generated, refuting the
claim that every event appended to history carries an identifier. -/
theorem C4_counterexample :
    (receiveMessage "10:00:00" remoteNoId (initialState (some "sk-test"))).events =
      [Json.obj (JFields.cons "type" (Json.str "response.done")
        (JFields.cons "timestamp" (Json.str "10:00:00") JFields.nil))] ∧
    getField (Json.obj (JFields.cons "type" (Json.str "response.done")
        (JFields.cons "timestamp" (Json.str "10:00:00") JFields.nil))) "event_id" = none := by
  decide

/-- Claim C4 (amended): every locally sent object message is recorded in
history carrying an event_id property (generated before send when absent),
but the remote message listener stores incoming events with their event_id
property exactly as received: no identifier is generated for remote events. -/
theorem C4_identifier_generation (gen now : String) (c : Channel) (fs : JFields) (e : Json)
    (hOpen : c.state = ChState.opened) :
    (∀ h, (sendClientEvent gen now (some c) (Json.obj fs)).history = some h →
        (getField h "event_id").isSome = true) ∧
    getField (handleRemoteMessage now e) "event_id" = getField e "event_id" := by
  constructor
  · intro h hh
    rw [sendClientEvent_open gen now c (Json.obj fs) hOpen] at hh
    rw [Option.some_inj] at hh
    subst hh
    rw [getField_backfillTimestamp_ne now _ "event_id" (by decide)]
    exact backfillId_obj_id_isSome gen fs
  · exact getField_backfillTimestamp_ne now e "event_id" (by decide)

/-- Claim C4 witness: a concrete remote event without an identifier is
stored with its (absent) event_id unchanged, and a concrete local send
records an event_id in history. -/
theorem C4_identifier_generation_witness :
    Channel.state { state := ChState.opened } = ChState.opened ∧
    getField (handleRemoteMessage "10:05:00" remoteNoId) "event_id" =
      getField remoteNoId "event_id" := by
  refine ⟨rfl, ?_⟩
  exact (C4_identifier_generation "evt_5" "10:05:00" { state := ChState.opened }
    JFields.nil remoteNoId rfl).2

/-- Claim C5: stopSession called on any state ends in Idle with no retained
handles, closes the released channel, closes the released transport after
stopping every sender track, leaves the history intact, and is idempotent.
It is a total function of the state, so it never throws. -/
theorem C5_stop_always_idle_idempotent (s : AppState) :
    isIdle (stopSession s).1 = true ∧
    (stopSession s).1.events = s.events ∧
    (stopSession s).2.1 = Option.map closeChannel s.dataChannel ∧
    (stopSession s).2.2 = Option.map closePC s.peerConnection ∧
    ((stopSession s).2.1.all fun c => c.state == ChState.closed) = true ∧
    ((stopSession s).2.2.all fun p => p.closed && p.senderTracks.all fun t => !t.live) = true ∧
    stopSession (stopSession s).1 = ((stopSession s).1, none, none) := by
  refine ⟨?_, rfl, rfl, rfl, ?_, ?_, rfl⟩
  · simp [stopSession, isIdle]
  · cases hdc : s.dataChannel <;> simp [stopSession, closeChannel, hdc]
  · cases hpc : s.peerConnection <;>
      simp [stopSession, closePC, stopTrack, hpc, List.all_map, Function.comp]

/-- Claim C1 counterexample: on a failing handshake (403 body "forbidden")
startSession alerts with the diagnostic, yet the data channel handle stays
set in the state, the created peer connection is left open with a live
track: the claimed full rollback does not happen. -/
theorem C1_counterexample :
    (startSession envForbidden idleValidState).alert =
      some "Failed to start session: API request failed: forbidden" ∧
    (startSession envForbidden idleValidState).state.dataChannel =
      some { state := ChState.connecting } ∧
    (startSession envForbidden idleValidState).createdPC =
      some { closed := false, senderTracks := [{ live := true }] } ∧
    (startSession envForbidden idleValidState).acquiredTrack = some { live := true } := by
  decide

/-- Claim C1 (amended): credential failures (missing or invalid key) abort
startSession before any resource is created, fully characterising the run;
but a microphone failure leaves the already-created peer connection open
(and nothing is rolled back), and a handshake failure additionally leaves
the data channel handle set in the state and the acquired track live. -/
theorem C1_start_failure_resources (env : StartEnv) (s : AppState) :
    (s.apiKey = "" →
      startSession env s =
        { state := s, createdPC := none, createdChannel := none, acquiredTrack := none,
          probed := false, alert := some "Please enter your OpenAI API key" }) ∧
    (s.apiKey ≠ "" → s.isKeyValid = false → env.validateOk = false →
      startSession env s =
        { state := { s with isKeyValid := false }, createdPC := none,
          createdChannel := none, acquiredTrack := none, probed := true,
          alert := some "Invalid API key. Please check and try again." }) ∧
    (s.apiKey ≠ "" → (s.isKeyValid || env.validateOk) = true → env.micOk = false →
      (startSession env s).alert = some ("Failed to start session: " ++ env.micErrMsg) ∧
      (startSession env s).createdPC = some { closed := false, senderTracks := [] } ∧
      (startSession env s).createdChannel = none ∧
      (startSession env s).state.dataChannel = s.dataChannel ∧
      (startSession env s).state.peerConnection = s.peerConnection) ∧
    (s.apiKey ≠ "" → (s.isKeyValid || env.validateOk) = true → env.micOk = true →
        env.sdpOk = false →
      (startSession env s).alert =
        some ("Failed to start session: API request failed: " ++ env.sdpBody) ∧
      (startSession env s).state.dataChannel = some { state := ChState.connecting } ∧
      (startSession env s).createdPC = some { closed := false, senderTracks := [{ live := true }] } ∧
      (startSession env s).acquiredTrack = some { live := true } ∧
      (startSession env s).state.peerConnection = s.peerConnection) := by
  refine ⟨?_, ?_, ?_, ?_⟩
  · intro h1
    simp [startSession, h1]
  · intro h1 h2 h3
    simp [startSession, h1, h2, h3]
  · intro h1 h2 h3
    simp [startSession, h1, h2, h3]
  · intro h1 h2 h3 h4
    simp [startSession, h1, h2, h3, h4]

/-- Claim C1 witness: the microphone-denied conjunct applied at a concrete
validated idle state. -/
theorem C1_start_failure_resources_witness :
    idleValidState.apiKey ≠ "" ∧
    (idleValidState.isKeyValid || envMicDenied.validateOk) = true ∧
    envMicDenied.micOk = false ∧
    ((startSession envMicDenied idleValidState).alert =
        some ("Failed to start session: " ++ envMicDenied.micErrMsg) ∧
      (startSession envMicDenied idleValidState).createdPC =
        some { closed := false, senderTracks := [] } ∧
      (startSession envMicDenied idleValidState).createdChannel = none ∧
      (startSession envMicDenied idleValidState).state.dataChannel =
        idleValidState.dataChannel ∧
      (startSession envMicDenied idleValidState).state.peerConnection =
        idleValidState.peerConnection) := by
  refine ⟨by decide, by decide, by decide, ?_⟩
  exact (C1_start_failure_resources envMicDenied idleValidState).2.2.1
    (by decide) (by decide) (by decide)

/-- Claim C2 counterexample: in a run where microphone permission is denied,
a transport (peer connection) has already been created — the transport is
created before the microphone is acquired, refuting the claimed order. -/
theorem C2_counterexample :
    envMicDenied.micOk = false ∧
    (startSession envMicDenied idleValidState).createdPC =
      some { closed := false, senderTracks := [] } ∧
    (startSession envMicDenied idleValidState).createdChannel = none := by
  decide

/-- Claim C2 (amended): startSession creates the transport connection before
acquiring the microphone; when microphone permission is denied it aborts
with no event channel ever created, no track acquired and no handles
retained in the state, but a transport connection has already been created
(with no track attached, showing creation preceded the microphone step) and
is left open. -/
theorem C2_transport_created_before_mic (env : StartEnv) (s : AppState)
    (hKey : s.apiKey ≠ "") (hValid : (s.isKeyValid || env.validateOk) = true)
    (hMic : env.micOk = false) :
    (startSession env s).createdPC = some { closed := false, senderTracks := [] } ∧
    (startSession env s).createdChannel = none ∧
    (startSession env s).acquiredTrack = none ∧
    (startSession env s).state.dataChannel = s.dataChannel ∧
    (startSession env s).state.peerConnection = s.peerConnection ∧
    (startSession env s).alert.isSome = true := by
  simp [startSession, hKey, hValid, hMic]

/-- Claim C2 witness: the amended statement at a concrete not-yet-validated
idle state whose probe succeeds and whose microphone is denied. -/
theorem C2_transport_created_before_mic_witness :
    unvalidatedState.apiKey ≠ "" ∧
    (unvalidatedState.isKeyValid || envMicDenied.validateOk) = true ∧
    envMicDenied.micOk = false ∧
    ((startSession envMicDenied unvalidatedState).createdPC =
        some { closed := false, senderTracks := [] } ∧
      (startSession envMicDenied unvalidatedState).createdChannel = none ∧
      (startSession envMicDenied unvalidatedState).acquiredTrack = none ∧
      (startSession envMicDenied unvalidatedState).state.dataChannel =
        unvalidatedState.dataChannel ∧
      (startSession envMicDenied unvalidatedState).state.peerConnection =
        unvalidatedState.peerConnection ∧
      (startSession envMicDenied unvalidatedState).alert.isSome = true) := by
  refine ⟨by decide, by decide, by decide, ?_⟩
  exact C2_transport_created_before_mic envMicDenied unvalidatedState
    (by decide) (by decide) (by decide)

/-- Claim C6 counterexample: replacing a previously validated credential via
handleSaveKey leaves the cached validity flag set to valid, and a subsequent
startSession skips the validity probe — the new credential is treated as
already valid, refuting the claim that validity is marked unknown. -/
theorem C6_counterexample :
    (handleSaveKey "sk-new" validatedState).isKeyValid = true ∧
    (startSession envHappy (handleSaveKey "sk-new" validatedState)).probed = false := by
  decide

/-- Claim C6 (amended): handleSaveKey stores the value and persists it when
non-empty (preserving the persisted copy when empty), but leaves the cached
validity flag unchanged; in particular after replacing a validated
credential, startSession never issues the validity probe for the new one. -/
theorem C6_save_key_keeps_validity (v : String) (s : AppState) :
    (handleSaveKey v s).apiKey = v ∧
    (handleSaveKey v s).isKeyValid = s.isKeyValid ∧
    (v ≠ "" → (handleSaveKey v s).stored = some v) ∧
    (v = "" → (handleSaveKey v s).stored = s.stored) ∧
    (∀ env, s.isKeyValid = true → (startSession env (handleSaveKey v s)).probed = false) := by
  refine ⟨?_, ?_, ?_, ?_, ?_⟩
  · by_cases h : v = "" <;> simp [handleSaveKey, h]
  · by_cases h : v = "" <;> simp [handleSaveKey, h]
  · intro h
    simp [handleSaveKey, h]
  · intro h
    simp [handleSaveKey, h]
  · intro env hv
    have hval : (handleSaveKey v s).isKeyValid = true := by
      by_cases h : v = "" <;> simp [handleSaveKey, h, hv]
    by_cases h2 : (handleSaveKey v s).apiKey = ""
    · simp [startSession, h2]
    · by_cases hm : env.micOk <;> by_cases hs : env.sdpOk <;>
        simp [startSession, h2, hval, hm, hs]

/-- Claim C6 witness: the amended statement at a concrete validated state
and a concrete non-empty replacement credential. -/
theorem C6_save_key_keeps_validity_witness :
    "sk-new" ≠ "" ∧ validatedState.isKeyValid = true ∧
    (handleSaveKey "sk-new" validatedState).stored = some "sk-new" ∧
    (startSession envHappy (handleSaveKey "sk-new" validatedState)).probed = false := by
  refine ⟨by decide, by decide, ?_, ?_⟩
  · exact (C6_save_key_keeps_validity "sk-new" validatedState).2.2.1 (by decide)
  · exact (C6_save_key_keeps_validity "sk-new" validatedState).2.2.2.2 envHappy (by decide)

/-- Claim C7: GET /token answers 500 with the structured error body when the
server-held secret is unconfigured (unset or empty) or the upstream call
throws, and otherwise relays the provider's parsed response body with status
200; the error body has shape error.message / error.type = server_error. -/
theorem C7_token_route (apiKey : Option String) (msg : String) (data : Json) :
    (strFalsy apiKey = true → ∀ u, tokenHandler apiKey u =
        (500, errorBody "OpenAI API key not configured")) ∧
    (strFalsy apiKey = false → tokenHandler apiKey (Except.error msg) =
        (500, errorBody (if msg = "" then "Failed to generate token" else msg))) ∧
    (strFalsy apiKey = false → tokenHandler apiKey (Except.ok data) = (200, data)) ∧
    getField (errorBody msg) "error" =
      some (Json.obj (JFields.cons "message" (Json.str msg)
        (JFields.cons "type" (Json.str "server_error") JFields.nil))) := by
  refine ⟨?_, ?_, ?_, ?_⟩
  · intro h u
    simp [tokenHandler, h]
  · intro h
    simp [tokenHandler, h]
  · intro h
    simp [tokenHandler, h]
  · simp [errorBody, getField, lookupField]

/-- Claim C7 witness: the three branches at concrete inputs — unconfigured
secret, upstream throw, upstream success. -/
theorem C7_token_route_witness :
    strFalsy none = true ∧ strFalsy (some "sk-secret") = false ∧
    tokenHandler none (Except.ok Json.null) =
      (500, errorBody "OpenAI API key not configured") ∧
    tokenHandler (some "sk-secret") (Except.error "boom") = (500, errorBody "boom") ∧
    tokenHandler (some "sk-secret") (Except.ok (Json.str "tok")) = (200, Json.str "tok") := by
  refine ⟨by decide, by decide, ?_, ?_, ?_⟩
  · exact (C7_token_route none "boom" Json.null).1 (by decide) (Except.ok Json.null)
  · have h := (C7_token_route (some "sk-secret") "boom" (Json.str "tok")).2.1 (by decide)
    rw [if_neg (by decide : ¬("boom" = ""))] at h
    exact h
  · exact (C7_token_route (some "sk-secret") "boom" (Json.str "tok")).2.2.1 (by decide)

/-- Claim C8: when the data channel is absent or not open, sendClientEvent
transmits no frame, changes nothing (in particular appends nothing to the
event history), and records the console.error diagnostic; being a total
function of the state, the call never throws. -/
theorem C8_send_without_open_channel (gen now : String) (s : AppState) (message : Json)
    (hNotOpen : (s.dataChannel.all fun c => !(c.state == ChState.opened)) = true) :
    (sendClientEventApp gen now s message).2.wire = none ∧
    (sendClientEventApp gen now s message).2.history = none ∧
    (sendClientEventApp gen now s message).1 = s ∧
    (sendClientEventApp gen now s message).1.events = s.events ∧
    (sendClientEventApp gen now s message).2.logged =
      some "Failed to send message - data channel not available or not open" := by
  cases hdc : s.dataChannel with
  | none => simp [sendClientEventApp, sendClientEvent, hdc]
  | some c =>
    have hc : ¬(c.state = ChState.opened) := by
      rw [hdc] at hNotOpen
      simpa [Option.all] using hNotOpen
    simp [sendClientEventApp, sendClientEvent, hdc, hc]

/-- Claim C8 witness: a concrete send on the initial state, which has no
data channel. -/
theorem C8_send_without_open_channel_witness :
    ((initialState none).dataChannel.all fun c => !(c.state == ChState.opened)) = true ∧
    (sendClientEventApp "evt_2" "11:00:00" (initialState none) remoteNoId).2.wire = none ∧
    (sendClientEventApp "evt_2" "11:00:00" (initialState none) remoteNoId).1 =
      initialState none ∧
    (sendClientEventApp "evt_2" "11:00:00" (initialState none) remoteNoId).2.logged =
      some "Failed to send message - data channel not available or not open" := by
  have h := C8_send_without_open_channel "evt_2" "11:00:00" (initialState none)
    remoteNoId (by decide)
  exact ⟨by decide, h.1, h.2.2.1, h.2.2.2.2⟩

/-- Claim C9: events are only ever mutated to backfill a missing timestamp:
for a local send on an open channel, the history entry agrees with the
transmitted message (the event as it stood right before send) on every
property other than timestamp, and a handled remote event agrees with the
event as received on every property other than timestamp. -/
theorem C9_no_mutation_except_timestamp (gen now : String) (c : Channel) (m e : Json)
    (k : String) (hOpen : c.state = ChState.opened) (hk : "timestamp" ≠ k) :
    (∀ w h, (sendClientEvent gen now (some c) m).wire = some w →
        (sendClientEvent gen now (some c) m).history = some h →
        getField h k = getField w k) ∧
    getField (handleRemoteMessage now e) k = getField e k := by
  constructor
  · intro w h hw hh
    rw [sendClientEvent_open gen now c m hOpen] at hw hh
    rw [Option.some_inj] at hw hh
    subst hw
    subst hh
    exact getField_backfillTimestamp_ne now (backfillId gen m) k hk
  · exact getField_backfillTimestamp_ne now e k hk

/-- Claim C9 witness: the type property of a concrete remote event survives
the message listener unchanged. -/
theorem C9_no_mutation_except_timestamp_witness :
    Channel.state { state := ChState.opened } = ChState.opened ∧
    ("timestamp" ≠ "type") ∧
    getField (handleRemoteMessage "10:00:00" remoteNoId) "type" =
      getField remoteNoId "type" := by
  refine ⟨rfl, by decide, ?_⟩
  exact (C9_no_mutation_except_timestamp "evt_3" "10:00:00" { state := ChState.opened }
    remoteNoId remoteNoId "type" rfl (by decide)).2

/-- Claim C10: saving the empty string as credential does not touch the
persisted copy: the stored value survives, and the credential loaded on the
next application start is the same as it would have been before the call. -/
theorem C10_empty_save_preserves_stored (s : AppState) :
    (handleSaveKey "" s).stored = s.stored ∧
    (handleSaveKey "" s).apiKey = "" ∧
    (initialState (handleSaveKey "" s).stored).apiKey = loadApiKey s.stored := by
  refine ⟨?_, ?_, ?_⟩
  · simp [handleSaveKey]
  · simp [handleSaveKey]
  · simp [handleSaveKey, initialState]
